import Mathlib

/-!
# Deal Scoring & Financial Projection Engine — shallow embedding

A shallow embedding (over `ℚ`, standing in for Python floats) of the core
scoring pipeline of `src/app.py`: the `PropertyData` record, the metrics
calculator (`compute_numbers`, `monthly_payment`), the risk evaluator
(`ai_flags`, `ai_penalty`, `kill_switch`), the composite scorer
(`get_base_weights`, `available_metrics`, `normalized_score`, `grade`),
the cash-flow projector (`project_cashflows`) and the sensitivity engine
(`sensitivity_matrix`), together with theorems settling the spec's
testable properties.
-/

namespace AIRE

/-- The `PropertyData` dataclass of `src/app.py` (lines 118–155): the
normalized, partially populated underwriting input.  Optional Python
fields become `Option` fields; floats become `ℚ`; ints become `ℤ`. -/
structure PropertyData where
  property_type : String := "Multifamily"
  address : String := ""
  price : Option ℚ := none
  replacement_cost : Option ℚ := none
  days_on_market : Option ℤ := none
  last_sale_price : Option ℚ := none
  last_sale_date : Option String := none
  monthly_rent : Option ℚ := none
  monthly_expenses : Option ℚ := none
  vacancy_rate : Option ℚ := none
  occupancy_pct : Option ℚ := none
  noi_annual_override : Option ℚ := none
  cap_rate_override_pct : Option ℚ := none
  down_payment_pct : Option ℚ := none
  interest_rate_pct : Option ℚ := none
  term_years : Option ℤ := none
  job_diversity_index : Option ℚ := none
  rent_regulation_risk : Option Bool := none
  units : Option ℤ := none
  sqft : Option ℚ := none
  deriving DecidableEq, Repr

/-- The `Numbers` bundle produced by `compute_numbers` (`src/app.py`
line 948): a fixed set of independently nullable derived values. -/
structure Numbers where
  loan_payment : Option ℚ := none
  noi_year : Option ℚ := none
  cap_rate : Option ℚ := none
  coc_return : Option ℚ := none
  dscr_stress : Option ℚ := none
  cash_flow_month : Option ℚ := none
  deriving DecidableEq, Repr

/-- `monthly_payment` (`src/app.py` lines 793–798): fixed-rate
amortization, straight-line when the monthly rate is non-positive. -/
def monthly_payment (principal annual_rate_pct : ℚ) (term_years : ℤ) : ℚ :=
  let r := (annual_rate_pct / 100) / 12
  let n := term_years * 12
  if r ≤ 0 then principal / (max n 1 : ℤ)
  else principal * (r * (1 + r) ^ n) / ((1 + r) ^ n - 1)

/-- `compute_numbers` (`src/app.py` lines 947–977).  Python's `x or 0`
on a float is numerically the identity, so those occurrences are
translated as the value itself. -/
def compute_numbers (p : PropertyData) : Numbers :=
  let noiCap : Option ℚ × Option ℚ :=
    match p.monthly_rent, p.monthly_expenses with
    | some rent, some expenses =>
        let vac := p.vacancy_rate.getD (8/100)
        let eff_rent := rent * (1 - vac)
        let noi_month := eff_rent - expenses
        let noi_year := noi_month * 12
        let cap : Option ℚ :=
          match p.price with
          | some pr => if 0 < pr then some (noi_year / pr) else none
          | none => none
        (some noi_year, cap)
    | _, _ => (none, none)
  match p.price, p.down_payment_pct, p.interest_rate_pct, p.term_years with
  | some pr, some dp, some irate, some term =>
      let loan_amount := pr * (1 - dp / 100)
      let pay := monthly_payment loan_amount irate term
      let cfCoc : Option ℚ × Option ℚ :=
        match noiCap.1 with
        | some noi_year =>
            let noi_month := noi_year / 12
            let cash_flow_month := noi_month - pay
            let cash_flow_year := cash_flow_month * 12
            let cash_invested := pr * (dp / 100)
            (some cash_flow_month,
              if 0 < cash_invested then some (cash_flow_year / cash_invested) else none)
        | none => (none, none)
      let dscr : Option ℚ :=
        match p.monthly_rent, p.monthly_expenses with
        | some rent, some expenses =>
            let vac := p.vacancy_rate.getD (8/100)
            let stressed_rent := rent * (80/100) * (1 - vac)
            let stressed_noi_m := stressed_rent - expenses
            some (stressed_noi_m / max pay 1)
        | _, _ => none
      { loan_payment := some pay, noi_year := noiCap.1, cap_rate := noiCap.2,
        coc_return := cfCoc.2, dscr_stress := dscr, cash_flow_month := cfCoc.1 }
  | _, _, _, _ =>
      { loan_payment := none, noi_year := noiCap.1, cap_rate := noiCap.2,
        coc_return := none, dscr_stress := none, cash_flow_month := none }

/-- The seven metric names of the Metrics/Weights maps
(`cashflow`, `downside`, `location`, `yield`, `liquidity`,
`optionality`, `ai_risk`). -/
inductive MetricKey where
  | cashflow | downside | location | yield | liquidity | optionality | ai_risk
  deriving DecidableEq, Repr

/-- The seven metric keys, in the (insertion) order of the weight dicts. -/
def MetricKey.all : List MetricKey :=
  [.cashflow, .downside, .location, .yield, .liquidity, .optionality, .ai_risk]

/-- `get_base_weights` (`src/app.py` lines 942–945): the fixed weight map
per rate-environment regime; anything other than (case-insensitive)
"HIGH" falls through to the NORMAL map. -/
def get_base_weights (rate_env : String) : MetricKey → ℚ :=
  if rate_env.toUpper = "HIGH" then
    fun k => match k with
      | .cashflow => 32/100 | .downside => 25/100 | .location => 12/100
      | .yield => 10/100 | .liquidity => 10/100 | .optionality => 6/100
      | .ai_risk => 5/100
  else
    fun k => match k with
      | .cashflow => 28/100 | .downside => 20/100 | .location => 12/100
      | .yield => 15/100 | .liquidity => 10/100 | .optionality => 10/100
      | .ai_risk => 5/100

/-- `available_metrics` (`src/app.py` lines 1017–1041), as a map from
metric key to optional value (`none` = key absent from the Python dict).
`ai_risk` is set unconditionally at the end. -/
def available_metrics (p : PropertyData) (nums : Numbers) (included : List String) :
    MetricKey → Option ℚ := fun k =>
  match k with
  | .cashflow =>
      if "Financing" ∈ included then
        match nums.dscr_stress with
        | some dscr => some (max 0 (min (dscr / (150/100)) 1))
        | none => none
      else none
  | .downside =>
      if "Downside" ∈ included then
        match p.replacement_cost, p.price with
        | some rc, some pr =>
            if 0 < pr then some (max 0 (min ((rc / pr) / (120/100)) 1)) else none
        | _, _ => none
      else none
  | .location =>
      if "Location" ∈ included then
        match p.job_diversity_index with
        | some jdi => some (max 0 (min jdi 1))
        | none => none
      else none
  | .yield =>
      if "Yield" ∈ included then
        match nums.cap_rate with
        | some cap => some (max 0 (min (cap / (10/100)) 1))
        | none => none
      else none
  | .liquidity =>
      if "Liquidity" ∈ included then
        match p.days_on_market with
        | some dom => some (max 0 (1 - (dom : ℚ) / 180))
        | none => none
      else none
  | .optionality => if "Optionality" ∈ included then some (60/100) else none
  | .ai_risk => some 1

/-- The keys present in a Metrics map, in fixed key order. -/
def presentKeys (metrics : MetricKey → Option ℚ) : List MetricKey :=
  MetricKey.all.filter (fun k => (metrics k).isSome)

/-- `normalized_score` (`src/app.py` lines 1043–1048): keeps the weights
of the present metric keys, renormalizes them by their sum (defaulting a
zero sum to 1, Python's `or 1.0`), and returns the 0–100 composite score
together with the normalized-weight association list. -/
def normalized_score (metrics : MetricKey → Option ℚ) (weights : MetricKey → ℚ) :
    ℚ × List (MetricKey × ℚ) :=
  let present := presentKeys metrics
  let denom0 := (present.map weights).sum
  let denom := if denom0 = 0 then 1 else denom0
  let norm_w := present.map (fun k => (k, weights k / denom))
  let score_val := (present.map (fun k => ((metrics k).getD 0) * (weights k / denom))).sum * 100
  (score_val, norm_w)

/-- `ai_flags` (`src/app.py` lines 986–1000): the ordered heuristic flag
strings, each gated on its module and required fields. -/
def ai_flags (p : PropertyData) (nums : Numbers) (included : List String) : List String :=
  let f1 : List String :=
    match p.monthly_rent, p.price with
    | some rent, some pr =>
        if "Rent & Price" ∈ included ∧ 0 < pr ∧ (rent * 12) / pr > 14/100 then
          ["Rent-to-price looks aggressive (verify comps)."] else []
    | _, _ => []
  let f2 : List String :=
    match p.vacancy_rate with
    | some v => if "Vacancy" ∈ included ∧ v < 5/100 then
        ["Vacancy assumption looks optimistic."] else []
    | none => []
  let f3 : List String :=
    match p.monthly_expenses, p.monthly_rent with
    | some ex, some rent => if "Expenses" ∈ included ∧ ex < rent * (20/100) then
        ["Expenses might be understated."] else []
    | _, _ => []
  let f4 : List String :=
    match nums.cap_rate with
    | some cap => if "Yield" ∈ included ∧ cap < 45/1000 then
        ["Low cap rate; deal relies on appreciation/execution."] else []
    | none => []
  let f5 : List String :=
    if "Regulation" ∈ included ∧ p.rent_regulation_risk = some true then
      ["Regulatory pressure risk."] else []
  f1 ++ f2 ++ f3 ++ f4 ++ f5

/-- Python's `needle in haystack` on lists of characters. -/
def containsSub (hay needle : List Char) : Bool :=
  match hay with
  | [] => needle.isEmpty
  | _ :: t => needle.isPrefixOf hay || containsSub t needle

/-- Python's `needle in s` substring test on strings. -/
def strIn (needle s : String) : Bool := containsSub s.toList needle.toList

/-- The per-flag point value of `ai_penalty`'s `if`/`elif` chain
(`src/app.py` lines 1004–1014): the first matching substring decides. -/
def flagPoints (f : String) : ℚ :=
  if strIn "aggressive" f then 6/100
  else if strIn "Vacancy" f then 8/100
  else if strIn "Expenses" f then 6/100
  else if strIn "Low cap" f then 6/100
  else if strIn "Regulatory" f then 20/100
  else 0

/-- `ai_penalty` (`src/app.py` lines 1002–1015): accumulates the per-flag
points over the flag list, then caps the total at 0.35. -/
def ai_penalty (flags : List String) : ℚ :=
  min (flags.foldl (fun base f => base + flagPoints f) 0) (35/100)

/-- `kill_switch` (`src/app.py` lines 1060–1067). -/
def kill_switch (nums : Numbers) (p : PropertyData) (included : List String) : Bool :=
  ("Financing" ∈ included ∧ ∃ d, nums.dscr_stress = some d ∧ d < 1) ∨
  ("Regulation" ∈ included ∧ p.rent_regulation_risk = some true) ∨
  ("Liquidity" ∈ included ∧ ∃ dom, p.days_on_market = some dom ∧ dom > 180)

/-- `grade` (`src/app.py` lines 1069–1076): the kill switch forces
F/"PASS"; otherwise the score thresholds decide. -/
def grade (score_val : ℚ) (killed : Bool) : String × String :=
  if killed then ("F", "PASS")
  else if score_val ≥ 90 then ("A", "STRONG BUY")
  else if score_val ≥ 80 then ("B", "BUY")
  else if score_val ≥ 70 then ("C", "WATCH")
  else if score_val ≥ 60 then ("D", "SPECULATIVE")
  else ("F", "PASS")

/-- The scoring-path composition used per deal (as in `sensitivity_matrix`,
`src/app.py` lines 912–921): numbers, metrics, base score, flags, penalty,
and the final `max(base_score * (1 - penalty), 0)`. -/
def final_score (p : PropertyData) (included : List String) (rate_env : String) : ℚ :=
  let nums := compute_numbers p
  let weights := get_base_weights rate_env
  let metrics := available_metrics p nums included
  let base_score := (normalized_score metrics weights).1
  let flags := ai_flags p nums included
  let penalty := ai_penalty flags
  max (base_score * (1 - penalty)) 0

/-- Result record of `project_cashflows` (`src/app.py` line 872); the
early return at line 837 omits `net_sale`, modelled as `none`. -/
structure ProjResult where
  cashflows : List ℚ
  irr : Option ℚ
  npv : Option ℚ
  exit_value : Option ℚ
  net_sale : Option ℚ
  deriving DecidableEq, Repr

/-- `_npv` (`src/app.py` lines 811–819): discounted sum over the series;
the computation is total, so the `try`/`except` never fires. -/
def npvCalc (rate : ℚ) (cashflows : List ℚ) : Option ℚ :=
  some ((cashflows.enum.map (fun tc => tc.2 / (1 + rate) ^ tc.1)).sum)

/-- One growth step of the projection loop (`src/app.py` lines 848–850):
NOI grows by `(1 + rent_growth)` and is then multiplied by
`(1 - expense_growth)` when `expense_growth < 1`, else zeroed. -/
def growNoi (rent_growth expense_growth noi : ℚ) : ℚ :=
  let noi1 := noi * (1 + rent_growth)
  if expense_growth < 1 then noi1 * (1 - expense_growth) else 0

/-- The operating years after year 1 (`src/app.py` lines 846–852): each
remaining year first grows NOI, then emits `NOI - debt`.  Returns the
emitted flows and the final-year NOI. -/
def laterFlows (rent_growth expense_growth debt : ℚ) : ℚ → ℕ → List ℚ × ℚ
  | noi, 0 => ([], noi)
  | noi, Nat.succ k =>
      let noi2 := growNoi rent_growth expense_growth noi
      let rest := laterFlows rent_growth expense_growth debt noi2 k
      ((noi2 - debt) :: rest.1, rest.2)

/-- Python's `cashflows[-1] += v` on a nonempty list. -/
def addToLast : List ℚ → ℚ → List ℚ
  | [], _ => []
  | [a], v => [a + v]
  | a :: b :: t, v => a :: addToLast (b :: t) v

/-- `project_cashflows` (`src/app.py` lines 821–872).  The IRR
root-finder (`_irr`, a numpy black box at lines 801–809) is threaded in
as the function parameter `irrF`; everything else is the source's
arithmetic. -/
def project_cashflows (irrF : List ℚ → Option ℚ) (p : PropertyData) (nums : Numbers)
    (hold_years : ℤ) (rent_growth expense_growth appreciation sale_cost_pct : ℚ)
    (exit_cap_rate : Option ℚ) : ProjResult :=
  let noi0 : Option ℚ :=
    match nums.noi_year with
    | some x => some x
    | none =>
        match p.monthly_rent, p.monthly_expenses with
        | some rent, some ex =>
            let vac := p.vacancy_rate.getD (8/100)
            some (((rent * (1 - vac)) - ex) * 12)
        | _, _ => none
  let debt0 : Option ℚ := nums.loan_payment.map (· * 12)
  match p.price with
  | none => { cashflows := [], irr := none, npv := none, exit_value := none, net_sale := none }
  | some price =>
      let down := match p.down_payment_pct with | some d => d / 100 | none => 1
      let equity0 := price * down
      let noiStart := noi0.getD 0
      let debt := debt0.getD 0
      let yearly : List ℚ × ℚ :=
        if hold_years ≤ 0 then ([], noiStart)
        else
          let later := laterFlows rent_growth expense_growth debt noiStart (hold_years.toNat - 1)
          ((noiStart - debt) :: later.1, later.2)
      let cashflows0 := -equity0 :: yearly.1
      let noiF := yearly.2
      let exit_value :=
        match exit_cap_rate with
        | some ec => if 0 < ec then noiF / ec else price * (1 + appreciation) ^ hold_years
        | none => price * (1 + appreciation) ^ hold_years
      let net_sale0 := exit_value * (1 - sale_cost_pct)
      let net_sale :=
        match p.down_payment_pct with
        | some _ => net_sale0 - price * (1 - down)
        | none => net_sale0
      let cashflows := addToLast cashflows0 net_sale
      { cashflows := cashflows, irr := irrF cashflows,
        npv := npvCalc (10/100) cashflows,
        exit_value := some exit_value, net_sale := some net_sale }

/-- The Streamlit session-state keys read by `sensitivity_matrix`
(`src/app.py` lines 923–929): ambient mutable state, `none` meaning the
key is unset so the hard-coded default applies. -/
structure SessionState where
  adv_hold_years : Option ℤ := none
  adv_rent_growth : Option ℚ := none
  adv_expense_growth : Option ℚ := none
  adv_appreciation : Option ℚ := none
  adv_sale_cost_pct : Option ℚ := none
  adv_use_exit_cap : Option Bool := none
  adv_exit_cap_rate : Option ℚ := none
  deriving DecidableEq, Repr

/-- The per-cell shock application of `sensitivity_matrix`
(`src/app.py` lines 906–910): rent multiplied by `1 + rs`, interest rate
shifted by `irs × 100` percentage points and floored at 0. -/
def applyShocks (p : PropertyData) (rs irs : ℚ) : PropertyData :=
  { p with
    monthly_rent := p.monthly_rent.map (fun r => r * (1 + rs)),
    interest_rate_pct := p.interest_rate_pct.map (fun x => max 0 (x + irs * 100)) }

/-- Python's `round(x, 1)`, modelled with round-half-away-from-zero
ties; no claim here depends on tie behaviour. -/
def round1 (x : ℚ) : ℚ := ((round (x * 10) : ℤ) : ℚ) / 10

/-- Python's `round(x, 2)`, same tie caveat as `round1`. -/
def round2 (x : ℚ) : ℚ := ((round (x * 100) : ℤ) : ℚ) / 100

/-- One grid cell of `sensitivity_matrix` (`src/app.py` lines 905–937):
the rounded final score and the rounded IRR percentage.  The cash-flow
leg's parameters are read from the ambient `SessionState` with the
source's defaults (5, 0.03, 0.03, 0.03, 0.07, False, 0.065). -/
def sensCell (irrF : List ℚ → Option ℚ) (sess : SessionState) (p : PropertyData)
    (included : List String) (rate_env : String) (rs irs : ℚ) : ℚ × Option ℚ :=
  let pp := applyShocks p rs irs
  let nums := compute_numbers pp
  let weights := get_base_weights rate_env
  let metrics := available_metrics pp nums included
  let base_score := (normalized_score metrics weights).1
  let flags := ai_flags pp nums included
  let penalty := ai_penalty flags
  -- the source also computes kill_switch here but never uses it in the cell
  let fscore := max (base_score * (1 - penalty)) 0
  let hold_years := sess.adv_hold_years.getD 5
  let rg := sess.adv_rent_growth.getD (3/100)
  let eg := sess.adv_expense_growth.getD (3/100)
  let appr := sess.adv_appreciation.getD (3/100)
  let sc := sess.adv_sale_cost_pct.getD (7/100)
  let use_exit_cap := sess.adv_use_exit_cap.getD false
  let exit_cap := if use_exit_cap then some (sess.adv_exit_cap_rate.getD (65/1000)) else none
  let model := project_cashflows irrF pp nums hold_years rg eg appr sc exit_cap
  (round1 fscore, model.irr.map (fun r => round2 (r * 100)))

/-- `sensitivity_matrix` (`src/app.py` lines 897–940): rows indexed by
rent shock, columns by rate shock; returns the score grid and the IRR
grid.  `base_nums` is a parameter of the source function but each cell
recomputes its own Numbers bundle, so it is unused, as in the source. -/
def sensitivity_matrix (irrF : List ℚ → Option ℚ) (sess : SessionState)
    (p : PropertyData) (base_nums : Numbers) (included : List String) (rate_env : String)
    (rent_shocks rate_shocks : List ℚ) :
    List (ℚ × List ℚ) × List (ℚ × List (Option ℚ)) :=
  let rows := rent_shocks.map
    (fun rs => (rs, rate_shocks.map (fun irs => sensCell irrF sess p included rate_env rs irs)))
  (rows.map (fun r => (r.1, r.2.map Prod.fst)),
   rows.map (fun r => (r.1, r.2.map Prod.snd)))

/-!
## Exception safety

Python raises `ZeroDivisionError` on a zero denominator.  The predicates
below walk the same control flow as the scoring pipeline and record, for
every division the pipeline can reach, that its denominator is nonzero
(divisions by nonzero literals such as `100`, `12`, `1.50`, `1.20`,
`180`, `0.10` are omitted).  `pipelineDivSafe = true` states that the
scoring run raises no exception.
-/

/-- Denominator checks of `monthly_payment`: the straight-line branch
divides by `max(n, 1)`; the amortization branch divides by
`(1+r)^n - 1` (and `(1+r)**n` itself can only raise for base 0 and
negative exponent, checked too). -/
def mpDivSafe (principal annual_rate_pct : ℚ) (term_years : ℤ) : Bool :=
  let r := (annual_rate_pct / 100) / 12
  let n := term_years * 12
  if r ≤ 0 then decide ((max n 1 : ℤ) ≠ 0)
  else decide (1 + r ≠ 0 ∨ 0 ≤ n) && decide ((1 + r) ^ n - 1 ≠ 0)

/-- Denominator checks of `compute_numbers`, in source order: the cap
rate's division by `price` (guarded by `price > 0`), the loan payment,
the cash-on-cash division by `cash_invested` (guarded by
`cash_invested > 0`), and the stress-DSCR division by `max(pay, 1.0)`. -/
def computeNumbersDivSafe (p : PropertyData) : Bool :=
  let noiY : Option ℚ :=
    match p.monthly_rent, p.monthly_expenses with
    | some rent, some ex =>
        let vac := p.vacancy_rate.getD (8/100)
        some ((rent * (1 - vac) - ex) * 12)
    | _, _ => none
  let capSafe : Bool :=
    match noiY, p.price with
    | some _, some pr => if 0 < pr then decide (pr ≠ 0) else true
    | _, _ => true
  let loanSafe : Bool :=
    match p.price, p.down_payment_pct, p.interest_rate_pct, p.term_years with
    | some pr, some dp, some irate, some term =>
        let loan_amount := pr * (1 - dp / 100)
        let pay := monthly_payment loan_amount irate term
        mpDivSafe loan_amount irate term &&
        (match noiY with
         | some _ =>
             let cash_invested := pr * (dp / 100)
             if 0 < cash_invested then decide (cash_invested ≠ 0) else true
         | none => true) &&
        (match p.monthly_rent, p.monthly_expenses with
         | some _, some _ => decide (max pay 1 ≠ 0)
         | _, _ => true)
    | _, _, _, _ => true
  capSafe && loanSafe

/-- Denominator check of `ai_flags`: the gross-yield division by
`price`, reached only under the `price > 0` guard with the module
included. -/
def aiFlagsDivSafe (p : PropertyData) (included : List String) : Bool :=
  match p.monthly_rent, p.price with
  | some _, some pr =>
      if "Rent & Price" ∈ included ∧ 0 < pr then decide (pr ≠ 0) else true
  | _, _ => true

/-- Denominator check of `available_metrics`: the downside metric's
division by `price`, reached only under the `price > 0` guard with the
module included. -/
def availableMetricsDivSafe (p : PropertyData) (included : List String) : Bool :=
  match p.replacement_cost, p.price with
  | some _, some pr =>
      if "Downside" ∈ included ∧ 0 < pr then decide (pr ≠ 0) else true
  | _, _ => true

/-- Denominator check of `normalized_score`: the renormalization divides
by `denom`, which Python's `or 1.0` makes nonzero. -/
def normalizedScoreDivSafe (metrics : MetricKey → Option ℚ) (weights : MetricKey → ℚ) : Bool :=
  let denom0 := ((presentKeys metrics).map weights).sum
  let denom := if denom0 = 0 then 1 else denom0
  decide (denom ≠ 0)

/-- All denominators reached by the scoring pipeline
(`compute_numbers`, `available_metrics`, `ai_flags`, `normalized_score`,
`kill_switch`, `grade` — the last two divide nothing) are nonzero. -/
def pipelineDivSafe (p : PropertyData) (included : List String) (rate_env : String) : Bool :=
  let nums := compute_numbers p
  computeNumbersDivSafe p &&
  availableMetricsDivSafe p included &&
  aiFlagsDivSafe p included &&
  normalizedScoreDivSafe (available_metrics p nums included) (get_base_weights rate_env)

/-- The optional fields of `PropertyData` (every field except the
required `property_type` and `address`). -/
inductive OptField where
  | price | replacement_cost | days_on_market | last_sale_price | last_sale_date
  | monthly_rent | monthly_expenses | vacancy_rate | occupancy_pct
  | noi_annual_override | cap_rate_override_pct
  | down_payment_pct | interest_rate_pct | term_years
  | job_diversity_index | rent_regulation_risk | units | sqft
  deriving DecidableEq, Repr

/-- Sets one optional field of a Deal Record to absent. -/
def removeField : OptField → PropertyData → PropertyData
  | .price, p => { p with price := none }
  | .replacement_cost, p => { p with replacement_cost := none }
  | .days_on_market, p => { p with days_on_market := none }
  | .last_sale_price, p => { p with last_sale_price := none }
  | .last_sale_date, p => { p with last_sale_date := none }
  | .monthly_rent, p => { p with monthly_rent := none }
  | .monthly_expenses, p => { p with monthly_expenses := none }
  | .vacancy_rate, p => { p with vacancy_rate := none }
  | .occupancy_pct, p => { p with occupancy_pct := none }
  | .noi_annual_override, p => { p with noi_annual_override := none }
  | .cap_rate_override_pct, p => { p with cap_rate_override_pct := none }
  | .down_payment_pct, p => { p with down_payment_pct := none }
  | .interest_rate_pct, p => { p with interest_rate_pct := none }
  | .term_years, p => { p with term_years := none }
  | .job_diversity_index, p => { p with job_diversity_index := none }
  | .rent_regulation_risk, p => { p with rent_regulation_risk := none }
  | .units, p => { p with units := none }
  | .sqft, p => { p with sqft := none }

/-- Every optional field of the Deal Record is populated. -/
def fullyPopulated (p : PropertyData) : Bool :=
  p.price.isSome && p.replacement_cost.isSome && p.days_on_market.isSome &&
  p.last_sale_price.isSome && p.last_sale_date.isSome &&
  p.monthly_rent.isSome && p.monthly_expenses.isSome && p.vacancy_rate.isSome &&
  p.occupancy_pct.isSome && p.noi_annual_override.isSome && p.cap_rate_override_pct.isSome &&
  p.down_payment_pct.isSome && p.interest_rate_pct.isSome && p.term_years.isSome &&
  p.job_diversity_index.isSome && p.rent_regulation_risk.isSome &&
  p.units.isSome && p.sqft.isSome

/-!
## Theorems
-/

/-- Every metric key is in the enumeration list. -/
theorem MetricKey.mem_all (k : MetricKey) : k ∈ MetricKey.all := by
  cases k <;> simp [MetricKey.all]

/-- C2: whenever the kill switch fires (`killed = true`), `grade`
returns grade "F" and verdict "PASS", regardless of the magnitude of
the score. -/
theorem grade_kill_switch_dominates (s : ℚ) : grade s true = ("F", "PASS") := rfl

/-- C8: for every Deal Record, Numbers bundle and included-modules set
(including the empty set), the Metrics map contains `ai_risk` with value
exactly 1.0, and is therefore never empty. -/
theorem ai_risk_always_present (p : PropertyData) (nums : Numbers) (included : List String) :
    available_metrics p nums included MetricKey.ai_risk = some 1 ∧
    MetricKey.ai_risk ∈ presentKeys (available_metrics p nums included) := by
  refine ⟨rfl, ?_⟩
  simp [presentKeys, List.mem_filter, MetricKey.mem_all, available_metrics]

/-- The spec's cap-rate worked example record: price 500000, monthly
rent 4000, monthly expenses 1200, vacancy rate 0.08. -/
def capRateExample : PropertyData :=
  { price := some 500000, monthly_rent := some 4000,
    monthly_expenses := some 1200, vacancy_rate := some (8/100) }

/-- C6 (counterexample): on the spec's worked example, `compute_numbers`
does not return the spec's stated NOI of 29,952 nor its cap rate of
0.059904: `((4000 × 0.92) − 1200) × 12 = 29,760`, not 29,952. -/
theorem cap_rate_example_mismatch :
    (compute_numbers capRateExample).noi_year ≠ some 29952 ∧
    (compute_numbers capRateExample).cap_rate ≠ some (59904/1000000) := by
  simp only [compute_numbers, capRateExample]
  norm_num

/-- C6 (amended): on the spec's worked example, the annual NOI is
29,760 = ((4000 × 0.92) − 1200) × 12 and the cap rate is
29760 / 500000 = 0.05952. -/
theorem cap_rate_example_actual :
    (compute_numbers capRateExample).noi_year = some 29760 ∧
    (compute_numbers capRateExample).cap_rate = some (5952/100000) := by
  simp only [compute_numbers, capRateExample]
  norm_num

/-- C5: `monthly_payment` is the standard fixed-rate amortization
formula with monthly rate `r = (annual_rate_pct/100)/12` over
`n = term_years × 12` periods, falling back to `principal / max(n, 1)`
when `r ≤ 0`; in particular the 300000 / 6% / 30-year payment is within
0.01 of 1798.65, and the 120000 / 0% / 10-year payment is exactly
1000. -/
theorem monthly_payment_spec :
    (∀ (principal annual_rate_pct : ℚ) (term_years : ℤ),
      monthly_payment principal annual_rate_pct term_years =
        if (annual_rate_pct / 100) / 12 ≤ 0 then
          principal / ((max (term_years * 12) 1 : ℤ) : ℚ)
        else
          principal *
            (((annual_rate_pct / 100) / 12) *
              (1 + (annual_rate_pct / 100) / 12) ^ (term_years * 12)) /
            ((1 + (annual_rate_pct / 100) / 12) ^ (term_years * 12) - 1)) ∧
    |monthly_payment 300000 6 30 - 179865/100| ≤ 1/100 ∧
    monthly_payment 120000 0 10 = 1000 := by
  refine ⟨fun _ _ _ => rfl, ?_, by norm_num [monthly_payment]⟩
  rw [abs_le]
  constructor <;> norm_num [monthly_payment]

/-- The per-flag point value is nonnegative. -/
theorem flagPoints_nonneg (f : String) : 0 ≤ flagPoints f := by
  unfold flagPoints
  split_ifs <;> norm_num

/-- The accumulator loop of `ai_penalty` is summation. -/
theorem foldl_flagPoints (l : List String) (b : ℚ) :
    l.foldl (fun base f => base + flagPoints f) b = b + (l.map flagPoints).sum := by
  induction l generalizing b with
  | nil => simp
  | cons x t ih => simp [ih, add_assoc]

/-- The penalty is nonnegative. -/
theorem ai_penalty_nonneg (flags : List String) : 0 ≤ ai_penalty flags := by
  unfold ai_penalty
  refine le_min ?_ (by norm_num)
  rw [foldl_flagPoints, zero_add]
  refine List.sum_nonneg ?_
  intro x hx
  obtain ⟨f, -, rfl⟩ := List.mem_map.1 hx
  exact flagPoints_nonneg f

/-- The penalty never exceeds the 0.35 cap. -/
theorem ai_penalty_le_cap (flags : List String) : ai_penalty flags ≤ 35/100 :=
  min_le_right _ _

/-- C7: `ai_penalty` is the sum of the per-flag substring-matched points
(aggressive 0.06, vacancy 0.08, expenses 0.06, low-cap 0.06, regulatory
0.20) capped at 0.35, so it always lies in [0, 0.35]; the five flag
strings produced by `ai_flags` carry exactly the claimed points. -/
theorem ai_penalty_spec (flags : List String) :
    ai_penalty flags = min ((flags.map flagPoints).sum) (35/100) ∧
    0 ≤ ai_penalty flags ∧ ai_penalty flags ≤ 35/100 ∧
    flagPoints "Rent-to-price looks aggressive (verify comps)." = 6/100 ∧
    flagPoints "Vacancy assumption looks optimistic." = 8/100 ∧
    flagPoints "Expenses might be understated." = 6/100 ∧
    flagPoints "Low cap rate; deal relies on appreciation/execution." = 6/100 ∧
    flagPoints "Regulatory pressure risk." = 20/100 := by
  refine ⟨?_, ai_penalty_nonneg flags, ai_penalty_le_cap flags, rfl, rfl, rfl, rfl, rfl⟩
  unfold ai_penalty
  rw [foldl_flagPoints, zero_add]

/-- Both weight maps assign every metric key a positive weight. -/
theorem get_base_weights_pos (rate_env : String) (k : MetricKey) :
    0 < get_base_weights rate_env k := by
  unfold get_base_weights
  split <;> cases k <;> norm_num

/-- C3: for any non-empty Metrics map, the normalized weights returned
by `normalized_score` sum to exactly 1 — in particular to 1.0 within
1e-9 — for the weight map of any regime (HIGH, NORMAL, or anything
else, which maps to NORMAL). -/
theorem normalized_weights_sum_one (rate_env : String) (metrics : MetricKey → Option ℚ)
    (h : ∃ k, (metrics k).isSome) :
    ((normalized_score metrics (get_base_weights rate_env)).2.map Prod.snd).sum = 1 ∧
    |((normalized_score metrics (get_base_weights rate_env)).2.map Prod.snd).sum - 1|
      ≤ 1/1000000000 := by
  obtain ⟨k₀, hk₀⟩ := h
  have hmem : k₀ ∈ presentKeys metrics := by
    simp only [presentKeys, List.mem_filter]
    exact ⟨MetricKey.mem_all k₀, by simpa using hk₀⟩
  have hw0 : ∀ x ∈ (presentKeys metrics).map (get_base_weights rate_env), 0 ≤ x := by
    intro x hx
    obtain ⟨k, -, rfl⟩ := List.mem_map.1 hx
    exact (get_base_weights_pos rate_env k).le
  have hs : 0 < ((presentKeys metrics).map (get_base_weights rate_env)).sum :=
    lt_of_lt_of_le (get_base_weights_pos rate_env k₀)
      (List.single_le_sum hw0 _ (List.mem_map_of_mem _ hmem))
  have hmain : ((normalized_score metrics (get_base_weights rate_env)).2.map Prod.snd).sum = 1 := by
    simp only [normalized_score, List.map_map]
    rw [if_neg (ne_of_gt hs)]
    have hcomp :
        (Prod.snd ∘ fun k => (k, get_base_weights rate_env k /
            ((presentKeys metrics).map (get_base_weights rate_env)).sum)) =
          fun k => get_base_weights rate_env k * (((presentKeys metrics).map
            (get_base_weights rate_env)).sum)⁻¹ := by
      funext k
      simp [div_eq_mul_inv]
    rw [hcomp, List.sum_map_mul_right, mul_inv_cancel₀ (ne_of_gt hs)]
  exact ⟨hmain, by rw [hmain]; norm_num⟩

/-- The Metrics map built over a non-empty key set: used as the concrete
input of the weight-conservation witness. -/
def aiRiskOnlyMetrics : MetricKey → Option ℚ := fun k =>
  match k with
  | .ai_risk => some 1
  | _ => none

/-- Witness for C3 at a concrete non-empty Metrics map and the HIGH
regime. -/
theorem normalized_weights_sum_one_witness :
    ((normalized_score aiRiskOnlyMetrics (get_base_weights "HIGH")).2.map Prod.snd).sum = 1 ∧
    |((normalized_score aiRiskOnlyMetrics (get_base_weights "HIGH")).2.map Prod.snd).sum - 1|
      ≤ 1/1000000000 :=
  normalized_weights_sum_one "HIGH" aiRiskOnlyMetrics ⟨MetricKey.ai_risk, rfl⟩

/-- A two-sided clamp lands in [0, 1]. -/
theorem clamp01_bounds (x : ℚ) : 0 ≤ max 0 (min x 1) ∧ max 0 (min x 1) ≤ 1 :=
  ⟨le_max_left 0 _, max_le (by norm_num) (min_le_right x 1)⟩

/-- Every value in the Metrics map lies in [0, 1], provided
`days_on_market` respects its documented range (≥ 0). -/
theorem metric_value_bounds (p : PropertyData) (nums : Numbers) (included : List String)
    (hdom : ∀ d, p.days_on_market = some d → (0:ℤ) ≤ d) :
    ∀ k v, available_metrics p nums included k = some v → 0 ≤ v ∧ v ≤ 1 := by
  intro k v h
  cases k <;> simp only [available_metrics] at h
  case cashflow =>
    split at h
    · split at h
      · cases h; exact clamp01_bounds _
      · exact absurd h (by simp)
    · exact absurd h (by simp)
  case downside =>
    split at h
    · split at h
      · split at h
        · cases h; exact clamp01_bounds _
        · exact absurd h (by simp)
      · exact absurd h (by simp)
    · exact absurd h (by simp)
  case location =>
    split at h
    · split at h
      · cases h; exact clamp01_bounds _
      · exact absurd h (by simp)
    · exact absurd h (by simp)
  case yield =>
    split at h
    · split at h
      · cases h; exact clamp01_bounds _
      · exact absurd h (by simp)
    · exact absurd h (by simp)
  case liquidity =>
    split at h
    · split at h
      case _ dom heq =>
        cases h
        have hd : (0:ℚ) ≤ (dom : ℚ) := by exact_mod_cast hdom dom heq
        refine ⟨le_max_left 0 _, max_le (by norm_num) ?_⟩
        have : 0 ≤ (dom : ℚ) / 180 := by positivity
        linarith
      · exact absurd h (by simp)
    · exact absurd h (by simp)
  case optionality =>
    split at h
    · cases h; norm_num
    · exact absurd h (by simp)
  case ai_risk =>
    cases h; norm_num

/-- The composite base score of `normalized_score` lies in [0, 100]
whenever every present metric value lies in [0, 1] and all weights are
nonnegative. -/
theorem normalized_score_bounds (metrics : MetricKey → Option ℚ) (weights : MetricKey → ℚ)
    (hm : ∀ k v, metrics k = some v → 0 ≤ v ∧ v ≤ 1) (hw : ∀ k, 0 ≤ weights k) :
    0 ≤ (normalized_score metrics weights).1 ∧ (normalized_score metrics weights).1 ≤ 100 := by
  simp only [normalized_score]
  have hs0 : 0 ≤ ((presentKeys metrics).map weights).sum := by
    refine List.sum_nonneg ?_
    intro x hx
    obtain ⟨k, -, rfl⟩ := List.mem_map.1 hx
    exact hw k
  set s := ((presentKeys metrics).map weights).sum with hsdef
  set denom := if s = 0 then 1 else s with hddef
  have hdpos : 0 < denom := by
    rw [hddef]
    split
    · exact one_pos
    · exact lt_of_le_of_ne hs0 (Ne.symm (by assumption))
  have hval : ∀ k ∈ presentKeys metrics, 0 ≤ (metrics k).getD 0 ∧ (metrics k).getD 0 ≤ 1 := by
    intro k hk
    have hsome : (metrics k).isSome := by
      have := (List.mem_filter.1 hk).2
      simpa using this
    cases hmk : metrics k with
    | none => rw [hmk] at hsome; simp at hsome
    | some v =>
        have := hm k v hmk
        simpa [hmk] using this
  constructor
  · refine mul_nonneg (List.sum_nonneg ?_) (by norm_num)
    intro x hx
    obtain ⟨k, hk, rfl⟩ := List.mem_map.1 hx
    exact mul_nonneg (hval k hk).1 (div_nonneg (hw k) hdpos.le)
  · have h1 : ((presentKeys metrics).map (fun k => (metrics k).getD 0 * (weights k / denom))).sum
        ≤ ((presentKeys metrics).map (fun k => weights k / denom)).sum := by
      refine List.sum_le_sum ?_
      intro k hk
      exact mul_le_of_le_one_left (div_nonneg (hw k) hdpos.le) (hval k hk).2
    have h2 : ((presentKeys metrics).map (fun k => weights k / denom)).sum = s / denom := by
      simp only [div_eq_mul_inv]
      rw [show (fun k => weights k * denom⁻¹) = fun k => (fun j => weights j) k * denom⁻¹ from rfl,
        List.sum_map_mul_right]
    have h3 : s / denom ≤ 1 := by
      rw [hddef]
      split
      case isTrue hz => rw [hz]; norm_num
      case isFalse hz => exact le_of_eq (div_self hz)
    calc ((presentKeys metrics).map (fun k => (metrics k).getD 0 * (weights k / denom))).sum * 100
        ≤ (s / denom) * 100 := by
          rw [← h2]
          exact mul_le_mul_of_nonneg_right h1 (by norm_num)
      _ ≤ 1 * 100 := mul_le_mul_of_nonneg_right h3 (by norm_num)
      _ = 100 := by norm_num

/-- C1: for every Deal Record whose fields respect the documented
ranges (`days_on_market ≥ 0`, `vacancy_rate ∈ [0,1]`), every
included-modules set, and every rate-environment regime, the final
score `max(base_score × (1 − penalty), 0)` lies in [0, 100]. -/
theorem final_score_bounds (p : PropertyData) (included : List String) (rate_env : String)
    (hdom : ∀ d, p.days_on_market = some d → (0:ℤ) ≤ d)
    (hvac : ∀ v, p.vacancy_rate = some v → 0 ≤ v ∧ v ≤ 1) :
    0 ≤ final_score p included rate_env ∧ final_score p included rate_env ≤ 100 := by
  unfold final_score
  have hb := normalized_score_bounds
    (available_metrics p (compute_numbers p) included) (get_base_weights rate_env)
    (metric_value_bounds p (compute_numbers p) included hdom)
    (fun k => (get_base_weights_pos rate_env k).le)
  have hp1 := ai_penalty_nonneg (ai_flags p (compute_numbers p) included)
  have hp2 := ai_penalty_le_cap (ai_flags p (compute_numbers p) included)
  refine ⟨le_max_right _ 0, max_le ?_ (by norm_num)⟩
  calc (normalized_score (available_metrics p (compute_numbers p) included)
          (get_base_weights rate_env)).1 *
        (1 - ai_penalty (ai_flags p (compute_numbers p) included))
      ≤ (normalized_score (available_metrics p (compute_numbers p) included)
          (get_base_weights rate_env)).1 * 1 :=
        mul_le_mul_of_nonneg_left (by linarith) hb.1
    _ ≤ 100 := by rw [mul_one]; exact hb.2

/-- Witness for C1 at the empty Deal Record, no modules, NORMAL
regime. -/
theorem final_score_bounds_witness :
    0 ≤ final_score {} [] "NORMAL" ∧ final_score {} [] "NORMAL" ≤ 100 :=
  final_score_bounds {} [] "NORMAL"
    (fun _ h => Option.noConfusion h) (fun _ h => Option.noConfusion h)

/-- `monthly_payment` divides by nonzero denominators whenever the term
is at least one year. -/
theorem mpDivSafe_of_pos_term (principal rate : ℚ) (term : ℤ) (ht : 1 ≤ term) :
    mpDivSafe principal rate term = true := by
  simp only [mpDivSafe]
  split
  · simp only [decide_eq_true_eq]
    have h1 : (1:ℤ) ≤ max (term * 12) 1 := le_max_right _ _
    omega
  · rename_i hr
    push_neg at hr
    simp only [Bool.and_eq_true, decide_eq_true_eq]
    have hn : (0:ℤ) < term * 12 := by omega
    have hbase : (1:ℚ) < 1 + rate / 100 / 12 := by linarith
    refine ⟨Or.inl (by linarith), ?_⟩
    have := one_lt_zpow₀ hbase hn
    intro hcontra
    have : (1 + rate / 100 / 12) ^ (term * 12) = 1 := by linarith [sub_eq_zero.1 hcontra]
    linarith [one_lt_zpow₀ hbase hn]

/-- The scoring pipeline never divides by zero, for any Deal Record
whose term (when present) is a positive number of years, any module
set, and any regime. -/
theorem pipelineDivSafe_always (p : PropertyData) (included : List String) (rate_env : String)
    (ht : ∀ t, p.term_years = some t → 1 ≤ t) :
    pipelineDivSafe p included rate_env = true := by
  unfold pipelineDivSafe
  simp only [Bool.and_eq_true]
  refine ⟨⟨⟨?_, ?_⟩, ?_⟩, ?_⟩
  · -- computeNumbersDivSafe
    unfold computeNumbersDivSafe
    simp only [Bool.and_eq_true]
    constructor
    · -- the cap-rate division, guarded by price > 0
      split
      · split
        · rename_i hpr; simp [ne_of_gt hpr]
        · rfl
      · rfl
    · -- the loan-path divisions
      split
      · rename_i pr dp irate term hprice hdp hirate hterm
        simp only [Bool.and_eq_true]
        refine ⟨⟨mpDivSafe_of_pos_term _ _ _ (ht term hterm), ?_⟩, ?_⟩
        · split
          · split
            · rename_i hpos; simp [ne_of_gt hpos]
            · rfl
          · rfl
        · split
          · simp only [decide_eq_true_eq]
            have : (1:ℚ) ≤ max (monthly_payment (pr * (1 - dp / 100)) irate term) 1 :=
              le_max_right _ _
            intro hzero
            rw [hzero] at this
            linarith
          · rfl
      · rfl
  · -- availableMetricsDivSafe
    unfold availableMetricsDivSafe
    split
    · split
      · rename_i hcond; simp [ne_of_gt hcond.2]
      · rfl
    · rfl
  · -- aiFlagsDivSafe
    unfold aiFlagsDivSafe
    split
    · split
      · rename_i hcond; simp [ne_of_gt hcond.2]
      · rfl
    · rfl
  · -- normalizedScoreDivSafe
    simp only [normalizedScoreDivSafe]
    split
    · simp
    · rename_i hz; simp [hz]

/-- Removing a field never changes the term except to absent. -/
theorem removeField_term (f : OptField) (p : PropertyData) :
    (removeField f p).term_years = p.term_years ∨ (removeField f p).term_years = none := by
  cases f <;> simp [removeField]

/-- C4 (amended): for every fully-populated Deal Record whose
`term_years` respects its documented range (a positive integer),
removing any single optional field leaves a record on which the scoring
pipeline (`compute_numbers`, `available_metrics`, `ai_flags`,
`normalized_score`, `kill_switch`, `grade`) reaches no zero
denominator, i.e. raises no exception; entries of the Numbers bundle
and the Metrics map may only become absent or (when their computation
consumed the removed field, e.g. via the 0.08 vacancy default) take a
different value. -/
theorem pipeline_no_exception_on_field_removal (p : PropertyData) (included : List String)
    (rate_env : String) (hfull : fullyPopulated p = true)
    (ht : ∀ t, p.term_years = some t → 1 ≤ t) (f : OptField) :
    pipelineDivSafe (removeField f p) included rate_env = true := by
  apply pipelineDivSafe_always
  intro t hth
  rcases removeField_term f p with heq | heq
  · exact ht t (heq ▸ hth)
  · rw [heq] at hth
    exact Option.noConfusion hth

/-- A concrete fully-populated Deal Record (valid ranges, vacancy
0.5). -/
def fullExample : PropertyData :=
  { property_type := "Multifamily", address := "1 Main St",
    price := some 200000, replacement_cost := some 220000,
    days_on_market := some 30, last_sale_price := some 180000,
    last_sale_date := some "2020-01-01",
    monthly_rent := some 1000, monthly_expenses := some 100,
    vacancy_rate := some (1/2), occupancy_pct := some 50,
    noi_annual_override := some 0, cap_rate_override_pct := some 0,
    down_payment_pct := some 20, interest_rate_pct := some 6,
    term_years := some 30, job_diversity_index := some (1/2),
    rent_regulation_risk := some false, units := some 2, sqft := some 900 }

/-- Witness for C4 (amended): removing `vacancy_rate` from the concrete
fully-populated record leaves the pipeline exception-free. -/
theorem pipeline_no_exception_witness :
    pipelineDivSafe (removeField OptField.vacancy_rate fullExample) [] "NORMAL" = true :=
  pipeline_no_exception_on_field_removal fullExample [] "NORMAL" rfl
    (fun t h => by injection h with h2; omega) OptField.vacancy_rate

/-- C4 (counterexample to the claim as stated): removing the single
optional field `vacancy_rate` from a fully-populated Deal Record does
not merely change which Numbers entries are absent — `noi_year` stays
present but changes value, because the 0.08 default vacancy replaces
the removed 0.5. -/
theorem remove_vacancy_changes_present_noi :
    fullyPopulated fullExample = true ∧
    (compute_numbers (removeField OptField.vacancy_rate fullExample)).noi_year.isSome = true ∧
    (compute_numbers fullExample).noi_year.isSome = true ∧
    (compute_numbers (removeField OptField.vacancy_rate fullExample)).noi_year ≠
      (compute_numbers fullExample).noi_year := by
  refine ⟨rfl, ?_, ?_, ?_⟩ <;>
    · simp only [compute_numbers, removeField, fullExample]
      norm_num

/-- `addToLast` preserves length. -/
theorem addToLast_length (l : List ℚ) (v : ℚ) : (addToLast l v).length = l.length := by
  induction l with
  | nil => rfl
  | cons a t ih =>
      cases t with
      | nil => rfl
      | cons b t2 => simpa [addToLast] using ih

/-- `laterFlows` emits one cash flow per remaining year. -/
theorem laterFlows_length (rg eg debt noi : ℚ) (k : ℕ) :
    (laterFlows rg eg debt noi k).1.length = k := by
  induction k generalizing noi with
  | zero => rfl
  | succ m ih => simp [laterFlows, ih]

/-- C9: for every hold period of at least one year, `project_cashflows`
returns the empty series with absent IRR, NPV and exit value when
`price` is absent; when `price` is present the series has length
`hold_years + 1` and starts with the negated initial equity,
`price × down-payment fraction` (the fraction defaulting to 1,
all-cash, when `down_payment_pct` is absent). -/
theorem project_cashflows_shape (irrF : List ℚ → Option ℚ) (p : PropertyData)
    (nums : Numbers) (hold_years : ℤ) (rg eg appr sc : ℚ) (ec : Option ℚ)
    (hh : 1 ≤ hold_years) :
    (p.price = none →
      project_cashflows irrF p nums hold_years rg eg appr sc ec =
        { cashflows := [], irr := none, npv := none, exit_value := none, net_sale := none }) ∧
    (∀ pr, p.price = some pr →
      (project_cashflows irrF p nums hold_years rg eg appr sc ec).cashflows.length
          = hold_years.toNat + 1 ∧
      (project_cashflows irrF p nums hold_years rg eg appr sc ec).cashflows.head?
          = some (-(pr * (match p.down_payment_pct with | some d => d/100 | none => 1)))) := by
  constructor
  · intro hnone
    simp only [project_cashflows, hnone]
  · intro pr hpr
    simp only [project_cashflows, hpr]
    rw [if_neg (by omega : ¬ hold_years ≤ 0)]
    constructor
    · simp only [addToLast_length, List.length_cons, laterFlows_length]
      omega
    · rfl

/-- Witness for C9: an all-cash record with price 100 over a one-year
hold gives a two-element series starting at −100. -/
theorem project_cashflows_shape_witness :
    (project_cashflows (fun _ => none) { price := some 100 } {} 1 0 0 0 0 none).cashflows.length
        = 2 ∧
    (project_cashflows (fun _ => none) { price := some 100 } {} 1 0 0 0 0 none).cashflows.head?
        = some (-(100 * 1)) := by
  have h := (project_cashflows_shape (fun _ => none) { price := some 100 } {} 1 0 0 0 0 none
    (by norm_num)).2 100 rfl
  exact ⟨by rw [h.1]; rfl, h.2⟩

/-- An IRR-solver instance that reports the length of the series: used
to observe the cash-flow series through the `irr` field. -/
def irrByLength : List ℚ → Option ℚ := fun cfs => some (cfs.length : ℚ)

/-- Session state holding a one-year advanced hold period. -/
def sessHold1 : SessionState := { adv_hold_years := some 1 }

/-- Session state holding a two-year advanced hold period. -/
def sessHold2 : SessionState := { adv_hold_years := some 2 }

/-- A minimal priced Deal Record for the sensitivity runs. -/
def sensExample : PropertyData := { price := some 1 }

/-- C10 (counterexample to the claim as stated): two `sensitivity_matrix`
calls with identical Deal Record, baseline Numbers, included modules,
regime and shock lists, differing only in the ambient session state
(`adv_hold_years` 1 vs 2), return different IRR grids — the
cash-flow-leg parameters are read from `st.session_state`, not from the
request. -/
theorem sensitivity_reads_session_state :
    sensitivity_matrix irrByLength sessHold1 sensExample {} [] "NORMAL" [0] [0] ≠
    sensitivity_matrix irrByLength sessHold2 sensExample {} [] "NORMAL" [0] [0] := by
  have e1 : (sensitivity_matrix irrByLength sessHold1 sensExample {} [] "NORMAL" [0] [0]).2
      = [(0, [some 200])] := by
    simp only [sensitivity_matrix, sensCell, applyShocks, compute_numbers, sensExample,
      sessHold1, irrByLength, project_cashflows, laterFlows, growNoi, addToLast, npvCalc,
      round2, Option.map_none, Option.getD, List.map_cons, List.map_nil]
    norm_num
  have e2 : (sensitivity_matrix irrByLength sessHold2 sensExample {} [] "NORMAL" [0] [0]).2
      = [(0, [some 300])] := by
    simp only [sensitivity_matrix, sensCell, applyShocks, compute_numbers, sensExample,
      sessHold2, irrByLength, project_cashflows, laterFlows, growNoi, addToLast, npvCalc,
      round2, Option.map_none, Option.getD, List.map_cons, List.map_nil]
    norm_num
  intro h
  have h2 := congrArg Prod.snd h
  rw [e1, e2] at h2
  norm_num at h2

/-- C10 (amended): the score grid of `sensitivity_matrix` is a pure
function of the explicit Deal Record, included modules, regime and
shock lists — identical across any two ambient session states, any two
IRR solvers, and any two baseline Numbers bundles (the source recomputes
Numbers per cell).  Only the IRR grid reads the ambient session
state. -/
theorem score_grid_pure (irrF irrG : List ℚ → Option ℚ) (s1 s2 : SessionState)
    (p : PropertyData) (nums1 nums2 : Numbers) (included : List String) (rate_env : String)
    (rent_shocks rate_shocks : List ℚ) :
    (sensitivity_matrix irrF s1 p nums1 included rate_env rent_shocks rate_shocks).1 =
    (sensitivity_matrix irrG s2 p nums2 included rate_env rent_shocks rate_shocks).1 := by
  simp only [sensitivity_matrix, List.map_map]
  refine List.map_congr_left ?_
  intro rs _
  simp only [Function.comp]
  congr 1
  simp only [List.map_map]
  refine List.map_congr_left ?_
  intro irs _
  rfl

end AIRE
